import Mathlib

set_option linter.unusedVariables false

/-!
Shallow embedding of the sea-builder build pipeline (src/index.js).

The pipeline bundles a Node.js project into a single module, optionally
obfuscates it, generates a SEA preparation blob via an external node process,
copies the node executable, optionally sets an icon, and injects the blob into
the copied executable.  External collaborators (esbuild, js-confuser, the
spawned node process, rcedit, postject) are opaque; their outcomes are supplied
by an Oracle record, while every decision, filesystem mutation, log message and
error-propagation step made by the pipeline code itself is modelled directly
from the source.

The filesystem is a flat association list from path to content.  Each stage
function returns the state after the call together with an optional thrown
error message (the state survives a throw, mirroring JavaScript exceptions).
-/

namespace SeaBuilder

/-- A log4js log entry, tagged by its level. -/
inductive LogEntry where
  | info (msg : String)
  | warn (msg : String)
  | error (msg : String)
deriving Repr, DecidableEq

/-- One call to postject.inject, recording every argument the source passes. -/
structure InjectCall where
  executable : String
  segmentName : String
  blob : String
  sentinelFuse : String
  machoSegmentName : Option String
deriving Repr, DecidableEq

/-- Program state: flat filesystem (path to content), emitted logs, and traces
of the external rcedit and postject calls made so far. -/
structure St where
  fs : List (String × String)
  logs : List LogEntry
  rceditCalls : List (String × String)
  injectCalls : List InjectCall
deriving Repr, DecidableEq

/-- Outcome of spawning the external node process: it exited with a code and
captured stdout and stderr, or it could not be started at all. -/
inductive SpawnOutcome where
  | exited (code : Nat) (stdout : String) (stderr : String)
  | spawnError (msg : String)
deriving Repr, DecidableEq

/-- Outcomes of the opaque external collaborators for one pipeline run.
bundleResult carries the bundled module content esbuild writes to out.js;
obfuscateResult is the js-confuser transformation; blobProduced says whether
the spawned node process actually created the blob file, and blobContentOf
derives the blob content from the current out.js content; unlink flags model
whether each fs.unlinkSync call succeeds at the OS level. -/
structure Oracle where
  bundleResult : Except String String
  obfuscateResult : String → Except String String
  spawnOutcome : SpawnOutcome
  blobProduced : Bool
  blobContentOf : String → String
  copyResult : Except String Unit
  nodeExeContent : String
  rceditResult : Except String Unit
  injectResult : Except String Unit
  unlinkConfigOk : Bool
  unlinkBlobOk : Bool
  unlinkOutOk : Bool

/-- Read a file: first binding for the path in the association list. -/
def fsRead (fs : List (String × String)) (p : String) : Option String :=
  match fs with
  | [] => none
  | (q, c) :: rest => if q == p then some c else fsRead rest p

/-- Remove every binding for a path. -/
def fsRemove (fs : List (String × String)) (p : String) : List (String × String) :=
  fs.filter (fun e => !(e.1 == p))

/-- Write a file, replacing any previous binding for the path. -/
def fsWrite (fs : List (String × String)) (p c : String) : List (String × String) :=
  (p, c) :: fsRemove fs p

/-- Model of fs.existsSync. -/
def fsExists (fs : List (String × String)) (p : String) : Bool :=
  (fsRead fs p).isSome

/-- Value of one base64 alphabet character. -/
def b64Val (c : Char) : Nat :=
  if 'A' ≤ c ∧ c ≤ 'Z' then c.toNat - 65
  else if 'a' ≤ c ∧ c ≤ 'z' then c.toNat - 97 + 26
  else if '0' ≤ c ∧ c ≤ '9' then c.toNat - 48 + 52
  else if c = '+' then 62
  else if c = '/' then 63
  else 0

/-- Base64 decoding loop: accumulate 6 bits per character and emit a byte
whenever at least 8 bits are available; padding characters are skipped. -/
def atobAux (cs : List Char) (acc bits : Nat) : List Char :=
  match cs with
  | [] => []
  | c :: rest =>
    if c = '=' then atobAux rest acc bits
    else
      let acc2 := acc * 64 + b64Val c
      let bits2 := bits + 6
      if h : bits2 ≥ 8 then
        Char.ofNat (acc2 / 2 ^ (bits2 - 8) % 256) :: atobAux rest (acc2 % 2 ^ (bits2 - 8)) (bits2 - 8)
      else atobAux rest acc2 bits2

/-- Model of the atob builtin used by the source to decode the fuse constant. -/
def atob (s : String) : String :=
  String.mk (atobAux s.data 0 0)

/-- The obfuscated encoding of the sentinel fuse, verbatim from the source. -/
def FUSE_B64 : String :=
  "Tk9ERV9TRUFfRlVTRV9mY2U2ODBhYjJjYzQ2N2I2ZTA3MmI4YjVkZjE5OTZiMg=="

/-- Model of path.join for two segments. -/
def pathJoin (a b : String) : String := a ++ "/" ++ b

/-- Model of path.resolve; absolutization does not matter for the claims, so
the path is kept as given. -/
def pathResolve (p : String) : String := p

/-- JavaScript truthiness of an optional string option value: undefined and
the empty string are falsy. -/
def jsTruthy : Option String → Bool
  | none => false
  | some s => !(s == "")

/-- The fixed bundled-module output path, from the source. -/
def outputFile : String := "out.js"

/-- The SEA configuration record serialized for the external node process. -/
structure SeaConfig where
  mainPath : String
  output : String
  disableExperimentalSEAWarning : Bool
deriving Repr, DecidableEq

/-- The seaConfig constant of the source. -/
def seaConfig : SeaConfig :=
  { mainPath := outputFile
    output := "sea-prep.blob"
    disableExperimentalSEAWarning := true }

/-- Model of JSON.stringify on the SEA configuration: a canonical injective
rendering of the three fields (the pipeline never parses it back). -/
def stringifySeaConfig (c : SeaConfig) : String :=
  "seaConfigJson:" ++ c.mainPath ++ "," ++ c.output ++ "," ++ toString c.disableExperimentalSEAWarning

/-- Output path of the target executable, from getExecutableOutputPath. -/
def getExecutableOutputPath (platform : String) : String :=
  let outputDir := "dist"
  let executableName := if platform == "win32" then "out.exe" else "out"
  pathJoin outputDir executableName

/-- Append an info log entry. -/
def logInfo (st : St) (msg : String) : St :=
  { st with logs := st.logs ++ [LogEntry.info msg] }

/-- Append a warn log entry. -/
def logWarn (st : St) (msg : String) : St :=
  { st with logs := st.logs ++ [LogEntry.warn msg] }

/-- Append an error log entry. -/
def logError (st : St) (msg : String) : St :=
  { st with logs := st.logs ++ [LogEntry.error msg] }

/-- Model of fs.unlinkSync: throws ENOENT when the file is missing; the ok
flag (from the Oracle) models OS-level failures such as permissions. -/
def unlinkSync (p : String) (ok : Bool) (st : St) : St × Option String :=
  if !(fsExists st.fs p) then
    (st, some ("ENOENT: no such file or directory, unlink " ++ p))
  else if !ok then
    (st, some ("EPERM: operation not permitted, unlink " ++ p))
  else
    ({ st with fs := fsRemove st.fs p }, none)

/-- Model of bundleProject: esbuild bundles the entry file and writes the
bundled module to outputFile; the bundling engine is opaque, so its outcome
and the produced content come from the Oracle. -/
def bundleProject (o : Oracle) (input : String) (st : St) : St × Option String :=
  match o.bundleResult with
  | Except.error e => (st, some e)
  | Except.ok bundled => ({ st with fs := fsWrite st.fs outputFile bundled }, none)

/-- Model of obfuscateOutputFile: read the bundled output file, run the opaque
js-confuser transformation, and write the result back in place. -/
def obfuscateOutputFile (o : Oracle) (outFile : String) (st : St) : St × Option String :=
  match fsRead st.fs outFile with
  | none => (st, some ("ENOENT: no such file or directory, open " ++ outFile))
  | some code =>
    match o.obfuscateResult code with
    | Except.error e => (st, some e)
    | Except.ok obfuscated => ({ st with fs := fsWrite st.fs outFile obfuscated }, none)

/-- Model of spawnNode: spawn the external node process on the config file.
On exit code 0 the promise resolves with the captured streams; on a non-zero
exit code or a spawn error it rejects.  The external process is what creates
the blob file, so that effect is applied here when the process exits 0 and the
Oracle says the blob was produced: the blob content is derived from the
current content of the bundled module file. -/
def spawnNode (o : Oracle) (st : St) : St × Except String (String × String) :=
  match o.spawnOutcome with
  | SpawnOutcome.spawnError msg => (st, Except.error msg)
  | SpawnOutcome.exited code stdout stderr =>
    let st2 :=
      if code == 0 && o.blobProduced then
        { st with fs := fsWrite st.fs seaConfig.output (o.blobContentOf ((fsRead st.fs outputFile).getD "")) }
      else st
    if code == 0 then (st2, Except.ok (stdout, stderr))
    else (st2, Except.error ("Node process exited with code " ++ toString code ++ "\nSTDOUT:\n" ++ stdout ++ "\nSTDERR:\n" ++ stderr))

/-- Model of generateSEABlob: serialize the descriptor to sea-config.json, run
the external node process, fail when the blob file does not exist afterwards
(leaving the descriptor file in place), and delete the descriptor file before
returning successfully. -/
def generateSEABlob (o : Oracle) (cfg : SeaConfig) (st : St) : St × Option String :=
  let seaConfigPath := "sea-config.json"
  let st1 := { st with fs := fsWrite st.fs seaConfigPath (stringifySeaConfig cfg) }
  match spawnNode o st1 with
  | (st2, Except.error e) => (st2, some e)
  | (st2, Except.ok (_, stderr)) =>
    if !(fsExists st2.fs cfg.output) then
      (st2, some ("SEA preparation blob file was not created: " ++ cfg.output ++ "\nSTDERR:\n" ++ stderr))
    else
      unlinkSync seaConfigPath o.unlinkConfigOk st2

/-- Model of createExecutableCopy: mkdirSync of the output directory is a
no-op on the flat file map; copyFileSync copies the running node executable
to the output path. -/
def createExecutableCopy (o : Oracle) (executableOutputPath : String) (st : St) : St × Option String :=
  match o.copyResult with
  | Except.error e => (st, some e)
  | Except.ok _ => ({ st with fs := fsWrite st.fs executableOutputPath o.nodeExeContent }, none)

/-- Effect of a successful rcedit call on the executable content; rcedit is
opaque, so any injective marking of the content works. -/
def rceditApply (content iconPath : String) : String :=
  "icon[" ++ iconPath ++ "]" ++ content

/-- Model of setIcon: call rcedit with the resolved icon path; any error from
rcedit is caught and logged, never rethrown.  The call is recorded in the
rceditCalls trace. -/
def setIcon (o : Oracle) (executable iconPath : String) (st : St) : St × Option String :=
  let st1 := { st with rceditCalls := st.rceditCalls ++ [(executable, pathResolve iconPath)] }
  match o.rceditResult with
  | Except.ok _ =>
    ({ st1 with fs := fsWrite st1.fs executable (rceditApply ((fsRead st1.fs executable).getD "") (pathResolve iconPath)) }, none)
  | Except.error e =>
    (logError st1 ("Error setting icon: " ++ e), none)

/-- Model of setExecutableIcon, branch for branch from the source.  In the
no-icon win32 branch the default icon path is joined from the APPDATA
environment variable; when APPDATA is unset, path.join throws a TypeError
since one segment is undefined. -/
def setExecutableIcon (o : Oracle) (executableOutputPath : String) (icon : Option String) (platform : String) (appdata : Option String) (st : St) : St × Option String :=
  if jsTruthy icon && fsExists st.fs (icon.getD "") && (platform == "win32") then
    setIcon o executableOutputPath (icon.getD "") st
  else if jsTruthy icon && fsExists st.fs (icon.getD "") && !(platform == "win32") then
    (logWarn st "Icon setting is only supported on Windows.", none)
  else if !(jsTruthy icon) && (platform == "win32") then
    match appdata with
    | none => (st, some "The path argument must be of type string. Received undefined")
    | some appDataDir =>
      let iconPath := pathJoin (pathJoin (pathJoin (pathJoin appDataDir "npm") "node_modules") "sea-builder") "default.ico"
      setIcon o executableOutputPath iconPath st
  else
    (logInfo st "No icon specified or not supported on this platform.", none)

/-- Effect of a successful postject.inject call on the executable content;
postject is opaque, so any injective combination works. -/
def postjectApply (content blob : String) : String :=
  "injected[" ++ blob ++ "]" ++ content

/-- Model of injectSEABlobIntoNodeExecutable: log, decode the fuse constant,
require the blob file to exist, read it, call postject.inject with segment
name NODE_SEA_BLOB, the sentinel fuse, and the macho segment hint only on
macos; wrap injector errors; then delete the blob file and the bundled module
file (these deletions are not guarded, so their errors propagate). -/
def injectSEABlobIntoNodeExecutable (o : Oracle) (platform : String) (nodeExecutable seaBlobPath : String) (st : St) : St × Option String :=
  let st1 := logInfo st ("Injecting SEA blob into " ++ nodeExecutable)
  let fuseString := atob FUSE_B64
  if !(fsExists st1.fs seaBlobPath) then
    (st1, some ("The SEA preparation blob file does not exist: " ++ seaBlobPath))
  else
    let seaBlobBuffer := (fsRead st1.fs seaBlobPath).getD ""
    let call : InjectCall :=
      { executable := nodeExecutable
        segmentName := "NODE_SEA_BLOB"
        blob := seaBlobBuffer
        sentinelFuse := fuseString
        machoSegmentName := if platform == "macos" then some "NODE_SEA" else none }
    let st2 := { st1 with injectCalls := st1.injectCalls ++ [call] }
    match o.injectResult with
    | Except.error e => (st2, some ("Error injecting SEA blob: " ++ e))
    | Except.ok _ =>
      let st3 := { st2 with fs := fsWrite st2.fs nodeExecutable (postjectApply ((fsRead st2.fs nodeExecutable).getD "") seaBlobBuffer) }
      match unlinkSync seaBlobPath o.unlinkBlobOk st3 with
      | (st4, some e) => (st4, some e)
      | (st4, none) => unlinkSync outputFile o.unlinkOutOk st4

/-- Result of one whole program run: final state and process exit status. -/
structure RunResult where
  st : St
  exit : Nat
deriving Repr, DecidableEq

/-- Model of the main function body: run the six stages in order inside one
try block, logging a success message after each stage; the catch clause logs
the error and exits with status 1; falling off the end exits with status 0. -/
def mainRun (o : Oracle) (input : String) (icon : Option String) (platform : String) (obfuscate : Bool) (appdata : Option String) (st : St) : RunResult :=
  let executableOutputPath := getExecutableOutputPath platform
  match bundleProject o input st with
  | (stE, some e) => { st := logError stE ("An unexpected error occurred: " ++ e), exit := 1 }
  | (st1, none) =>
  let st1 := logInfo st1 "Bundle completed successfully"
  let step2 : St × Option String :=
    if obfuscate then
      match obfuscateOutputFile o outputFile st1 with
      | (stE, some e) => (stE, some e)
      | (stO, none) => (logInfo stO "Obfuscation completed successfully", none)
    else (st1, none)
  match step2 with
  | (stE, some e) => { st := logError stE ("An unexpected error occurred: " ++ e), exit := 1 }
  | (st2, none) =>
  match generateSEABlob o seaConfig st2 with
  | (stE, some e) => { st := logError stE ("An unexpected error occurred: " ++ e), exit := 1 }
  | (st3, none) =>
  let st3 := logInfo st3 "SEA preparation blob generated successfully"
  match createExecutableCopy o executableOutputPath st3 with
  | (stE, some e) => { st := logError stE ("An unexpected error occurred: " ++ e), exit := 1 }
  | (st4, none) =>
  let st4 := logInfo st4 "Executable copy created successfully"
  match setExecutableIcon o executableOutputPath icon platform appdata st4 with
  | (stE, some e) => { st := logError stE ("An unexpected error occurred: " ++ e), exit := 1 }
  | (st5, none) =>
  let st5 := logInfo st5 "Icon set successfully"
  match injectSEABlobIntoNodeExecutable o platform executableOutputPath seaConfig.output st5 with
  | (stE, some e) => { st := logError stE ("An unexpected error occurred: " ++ e), exit := 1 }
  | (st6, none) =>
  { st := logInfo st6 "SEA blob injected successfully", exit := 0 }

/-- A semantic version triple, for the host Node.js version. -/
structure Semver where
  major : Nat
  minor : Nat
  patch : Nat
deriving Repr, DecidableEq

/-- Model of semver.gte on version triples. -/
def semverGte (a b : Semver) : Bool :=
  if a.major ≠ b.major then decide (a.major > b.major)
  else if a.minor ≠ b.minor then decide (a.minor > b.minor)
  else decide (a.patch ≥ b.patch)

/-- The minimum supported Node.js version, from the startup check. -/
def MIN_NODE_VERSION : Semver := { major := 19, minor := 9, patch := 0 }

/-- The CLI options as supplied by the user; commander sees each option as
present or absent. -/
structure RawOpts where
  input : Option String
  icon : Option String
  platform : Option String
  obfuscate : Bool
deriving Repr, DecidableEq

/-- The parsed options record available after commander parsing succeeds. -/
structure Opts where
  input : String
  icon : Option String
  platform : String
  obfuscate : Bool
deriving Repr, DecidableEq

/-- Model of commander option parsing: requiredOption makes parsing fail when
the input or the platform option is missing, and that is the only check — the
platform value itself is passed through without validation against the
supported set. -/
def parseOpts (raw : RawOpts) : Option Opts :=
  match raw.input, raw.platform with
  | some i, some p => some { input := i, icon := raw.icon, platform := p, obfuscate := raw.obfuscate }
  | _, _ => none

/-- Model of the whole program: the Node.js version gate runs first and exits
with status 1 before anything else touches the state; then commander parsing
(commander exits non-zero on a missing required option); then main. -/
def runProgram (nodeVersion : Semver) (raw : RawOpts) (o : Oracle) (appdata : Option String) (st : St) : RunResult :=
  if !(semverGte nodeVersion MIN_NODE_VERSION) then
    { st := logError st "Unsupported Version Error", exit := 1 }
  else
    match parseOpts raw with
    | none => { st := st, exit := 1 }
    | some opts => mainRun o opts.input opts.icon opts.platform opts.obfuscate appdata st

/-- A concrete all-success oracle for witnesses and counterexamples. -/
def okOracle : Oracle :=
  { bundleResult := Except.ok "bundledContent"
    obfuscateResult := fun c => Except.ok ("obf:" ++ c)
    spawnOutcome := SpawnOutcome.exited 0 "" ""
    blobProduced := true
    blobContentOf := fun c => "blob:" ++ c
    copyResult := Except.ok ()
    nodeExeContent := "nodeExecutableBytes"
    rceditResult := Except.ok ()
    injectResult := Except.ok ()
    unlinkConfigOk := true
    unlinkBlobOk := true
    unlinkOutOk := true }

/-- A concrete initial state holding only the entry source file. -/
def stEntry : St :=
  { fs := [("server.ts", "entrySource")], logs := [], rceditCalls := [], injectCalls := [] }

/-- The empty initial state. -/
def st0 : St :=
  { fs := [], logs := [], rceditCalls := [], injectCalls := [] }

/-- The all-success oracle with the deletion of the blob file failing. -/
def badUnlinkOracle : Oracle := { okOracle with unlinkBlobOk := false }

/-- The all-success oracle except that the spawned process, although exiting
with code 0, does not create the blob file. -/
def noBlobOracle : Oracle := { okOracle with blobProduced := false }

/-- Raw CLI options naming a platform outside the supported enumeration. -/
def rawFreebsd : RawOpts :=
  { input := some "server.ts", icon := none, platform := some "freebsd", obfuscate := false }

/-- Reading after removing: the removed path reads as absent, others are
unchanged. -/
theorem fsRead_fsRemove (fs : List (String × String)) (p q : String) :
    fsRead (fsRemove fs p) q = if p == q then none else fsRead fs q := by
  induction fs with
  | nil => simp [fsRemove, fsRead]
  | cons e rest ih =>
    obtain ⟨a, b⟩ := e
    by_cases hap : a = p <;> by_cases haq : a = q <;>
      simp_all [fsRemove, fsRead, List.filter_cons, beq_iff_eq]
    exact fun h2 => hap h2.symm

/-- Reading after writing: the written path reads back the new content,
others are unchanged. -/
theorem fsRead_fsWrite (fs : List (String × String)) (p c q : String) :
    fsRead (fsWrite fs p c) q = if p == q then some c else fsRead fs q := by
  by_cases h : p = q <;> simp [fsWrite, fsRead, fsRead_fsRemove, h]

/-- Existence after writing. -/
theorem fsExists_fsWrite (fs : List (String × String)) (p c q : String) :
    fsExists (fsWrite fs p c) q = ((p == q) || fsExists fs q) := by
  by_cases h : p = q <;> simp [fsExists, fsRead_fsWrite, h]

/-- Existence after removing. -/
theorem fsExists_fsRemove (fs : List (String × String)) (p q : String) :
    fsExists (fsRemove fs p) q = (!(p == q) && fsExists fs q) := by
  by_cases h : p = q <;> simp [fsExists, fsRead_fsRemove, h]

/-- The log helpers only touch the log list. -/
theorem logInfo_fs (st : St) (m : String) : (logInfo st m).fs = st.fs := rfl

/-- Log helpers leave the filesystem of warn entries unchanged as well. -/
theorem logWarn_fs (st : St) (m : String) : (logWarn st m).fs = st.fs := rfl

/-- Log helpers leave the filesystem of error entries unchanged as well. -/
theorem logError_fs (st : St) (m : String) : (logError st m).fs = st.fs := rfl

/-- Unlinking never changes the trace of injector calls. -/
theorem unlinkSync_injectCalls (p : String) (ok : Bool) (st : St) :
    ((unlinkSync p ok st).1).injectCalls = st.injectCalls := by
  simp only [unlinkSync]
  split
  · rfl
  · split
    · rfl
    · rfl

/-- Claim C6: when the host Node.js version is below 19.9.0, runProgram exits
with status 1 and performs zero pipeline stages: the filesystem and both
external-call traces are exactly as they were, and only the startup error is
reported.  The check runs before option parsing and before main. -/
theorem version_gate_blocks_pipeline (v : Semver) (raw : RawOpts) (o : Oracle) (appdata : Option String) (st : St)
    (hv : semverGte v MIN_NODE_VERSION = false) :
    (runProgram v raw o appdata st).exit = 1 ∧
    (runProgram v raw o appdata st).st.fs = st.fs ∧
    (runProgram v raw o appdata st).st.rceditCalls = st.rceditCalls ∧
    (runProgram v raw o appdata st).st.injectCalls = st.injectCalls := by
  simp [runProgram, hv, logError]

/-- C6 witness: a concrete run on Node.js 18.0.0 exits 1 and leaves the state
untouched. -/
theorem version_gate_blocks_pipeline_witness :
    (runProgram (Semver.mk 18 0 0) (RawOpts.mk (some "server.ts") none (some "linux") false) okOracle none stEntry).exit = 1 ∧
    (runProgram (Semver.mk 18 0 0) (RawOpts.mk (some "server.ts") none (some "linux") false) okOracle none stEntry).st.fs = stEntry.fs ∧
    (runProgram (Semver.mk 18 0 0) (RawOpts.mk (some "server.ts") none (some "linux") false) okOracle none stEntry).st.rceditCalls = stEntry.rceditCalls ∧
    (runProgram (Semver.mk 18 0 0) (RawOpts.mk (some "server.ts") none (some "linux") false) okOracle none stEntry).st.injectCalls = stEntry.injectCalls :=
  version_gate_blocks_pipeline (Semver.mk 18 0 0) (RawOpts.mk (some "server.ts") none (some "linux") false) okOracle none stEntry rfl

/-- Claim C2: generateSEABlob serializes the descriptor to sea-config.json and
runs the external process.  If the process exits 0 but the blob file does not
exist afterwards, the stage throws the fatal missing-blob error and the
descriptor file is preserved with its serialized content; if the blob file
does exist, the descriptor file is deleted and the stage returns without
error, leaving the blob in place. -/
theorem generateSEABlob_postconditions (o : Oracle) (st : St) (stdout stderr : String)
    (hspawn : o.spawnOutcome = SpawnOutcome.exited 0 stdout stderr) :
    (o.blobProduced = false → fsExists st.fs "sea-prep.blob" = false →
      (generateSEABlob o seaConfig st).2
          = some ("SEA preparation blob file was not created: sea-prep.blob\nSTDERR:\n" ++ stderr) ∧
        fsRead ((generateSEABlob o seaConfig st).1).fs "sea-config.json"
          = some (stringifySeaConfig seaConfig)) ∧
    (o.blobProduced = true → o.unlinkConfigOk = true →
      (generateSEABlob o seaConfig st).2 = none ∧
        fsExists ((generateSEABlob o seaConfig st).1).fs "sea-config.json" = false ∧
        fsExists ((generateSEABlob o seaConfig st).1).fs "sea-prep.blob" = true) := by
  constructor
  · intro hb hex
    simp [generateSEABlob, spawnNode, hspawn, hb, seaConfig, unlinkSync,
      fsExists_fsWrite, fsRead_fsWrite, hex, outputFile]
  · intro hb hu
    simp [generateSEABlob, spawnNode, hspawn, hb, hu, seaConfig, unlinkSync,
      fsExists_fsWrite, fsRead_fsWrite, fsExists_fsRemove, fsRead_fsRemove, outputFile]

/-- C2 witness: with a process that exits 0 without creating the blob, the
stage fails and the descriptor file is preserved. -/
theorem generateSEABlob_postconditions_witness :
    (generateSEABlob noBlobOracle seaConfig st0).2
        = some ("SEA preparation blob file was not created: sea-prep.blob\nSTDERR:\n" ++ "") ∧
      fsRead ((generateSEABlob noBlobOracle seaConfig st0).1).fs "sea-config.json"
        = some (stringifySeaConfig seaConfig) :=
  (generateSEABlob_postconditions noBlobOracle st0 "" "" rfl).1 rfl rfl

/-- The obfuscated fuse constant decodes to the fixed sentinel string. -/
theorem atob_fuse : atob FUSE_B64 = "NODE_SEA_FUSE_fce680ab2cc467b6e072b8b5df1996b2" := rfl

/-- Claim C3: whenever the injection stage runs with the blob file present,
it records exactly one injector call, on the given executable, with segment
name NODE_SEA_BLOB, the sentinel fuse equal to the decoded constant passed
through unmodified, and the macho segment hint NODE_SEA exactly when the
platform is macos and no value otherwise. -/
theorem inject_call_arguments (o : Oracle) (platform nodeExecutable seaBlobPath : String) (st : St)
    (h : fsExists st.fs seaBlobPath = true) :
    ((injectSEABlobIntoNodeExecutable o platform nodeExecutable seaBlobPath st).1).injectCalls
      = st.injectCalls ++
        [InjectCall.mk nodeExecutable "NODE_SEA_BLOB" ((fsRead st.fs seaBlobPath).getD "")
          "NODE_SEA_FUSE_fce680ab2cc467b6e072b8b5df1996b2"
          (if platform == "macos" then some "NODE_SEA" else none)] := by
  rw [show "NODE_SEA_FUSE_fce680ab2cc467b6e072b8b5df1996b2" = atob FUSE_B64 from rfl]
  simp only [injectSEABlobIntoNodeExecutable, logInfo, h, Bool.not_true, Bool.false_eq_true,
    if_false]
  cases o.injectResult with
  | error e => rfl
  | ok u =>
    simp only []
    rcases h4 : unlinkSync seaBlobPath o.unlinkBlobOk
      { fs :=
          fsWrite st.fs nodeExecutable
            (postjectApply ((fsRead st.fs nodeExecutable).getD "") ((fsRead st.fs seaBlobPath).getD ""))
        logs := st.logs ++ [LogEntry.info ("Injecting SEA blob into " ++ nodeExecutable)]
        rceditCalls := st.rceditCalls
        injectCalls := st.injectCalls ++
          [InjectCall.mk nodeExecutable "NODE_SEA_BLOB" ((fsRead st.fs seaBlobPath).getD "")
            (atob FUSE_B64) (if platform == "macos" then some "NODE_SEA" else none)] } with ⟨st4, e4⟩
    have h4c : st4.injectCalls = st.injectCalls ++
        [InjectCall.mk nodeExecutable "NODE_SEA_BLOB" ((fsRead st.fs seaBlobPath).getD "")
          (atob FUSE_B64) (if platform == "macos" then some "NODE_SEA" else none)] := by
      have hh := unlinkSync_injectCalls seaBlobPath o.unlinkBlobOk
        { fs :=
            fsWrite st.fs nodeExecutable
              (postjectApply ((fsRead st.fs nodeExecutable).getD "") ((fsRead st.fs seaBlobPath).getD ""))
          logs := st.logs ++ [LogEntry.info ("Injecting SEA blob into " ++ nodeExecutable)]
          rceditCalls := st.rceditCalls
          injectCalls := st.injectCalls ++
            [InjectCall.mk nodeExecutable "NODE_SEA_BLOB" ((fsRead st.fs seaBlobPath).getD "")
              (atob FUSE_B64) (if platform == "macos" then some "NODE_SEA" else none)] }
      rw [h4] at hh
      exact hh
    cases e4 with
    | some e => simpa [h4] using h4c
    | none =>
      have hh2 := unlinkSync_injectCalls outputFile o.unlinkOutOk st4
      simpa [h4, hh2] using h4c

/-- C3 witness: a concrete injection on linux records the call with segment
NODE_SEA_BLOB, the decoded sentinel, and no macho segment hint. -/
theorem inject_call_arguments_witness :
    ((injectSEABlobIntoNodeExecutable okOracle "linux" "dist/out" "sea-prep.blob"
        (St.mk [("sea-prep.blob", "BB")] [] [] [])).1).injectCalls
      = [] ++
        [InjectCall.mk "dist/out" "NODE_SEA_BLOB"
          ((fsRead (St.mk [("sea-prep.blob", "BB")] [] [] []).fs "sea-prep.blob").getD "")
          "NODE_SEA_FUSE_fce680ab2cc467b6e072b8b5df1996b2"
          (if ("linux" : String) == "macos" then some "NODE_SEA" else none)] :=
  inject_call_arguments okOracle "linux" "dist/out" "sea-prep.blob"
    (St.mk [("sea-prep.blob", "BB")] [] [] []) rfl

/-- Claim C10: when no icon is supplied, the platform is win32 and the APPDATA
environment variable is unset, the icon stage throws while joining the
default-icon path, before any icon application is attempted (no rcedit call is
recorded), and the whole pipeline aborts with exit status 1 rather than
continuing without an icon. -/
theorem appdata_unset_aborts_pipeline (o : Oracle) (p entryContent b stdout stderr exeC : String)
    (g : String → String) (st : St) :
    setExecutableIcon o p none "win32" none st
        = (st, some "The path argument must be of type string. Received undefined") ∧
    ((setExecutableIcon o p none "win32" none st).1).rceditCalls = st.rceditCalls ∧
    (mainRun (Oracle.mk (Except.ok b) (fun c => Except.ok c) (SpawnOutcome.exited 0 stdout stderr)
        true g (Except.ok ()) exeC (Except.ok ()) (Except.ok ()) true true true)
      "server.ts" none "win32" false none (St.mk [("server.ts", entryContent)] [] [] [])).exit = 1 ∧
    ((mainRun (Oracle.mk (Except.ok b) (fun c => Except.ok c) (SpawnOutcome.exited 0 stdout stderr)
        true g (Except.ok ()) exeC (Except.ok ()) (Except.ok ()) true true true)
      "server.ts" none "win32" false none (St.mk [("server.ts", entryContent)] [] [] [])).st).rceditCalls = [] ∧
    ((mainRun (Oracle.mk (Except.ok b) (fun c => Except.ok c) (SpawnOutcome.exited 0 stdout stderr)
        true g (Except.ok ()) exeC (Except.ok ()) (Except.ok ()) true true true)
      "server.ts" none "win32" false none (St.mk [("server.ts", entryContent)] [] [] [])).st).logs.getLast?
      = some (LogEntry.error "An unexpected error occurred: The path argument must be of type string. Received undefined") :=
  ⟨rfl, rfl, rfl, rfl, rfl⟩

/-- Claim C7: for each supported platform, a fully successful run with a valid
entry file and no icon exits 0 and leaves, besides the untouched entry file,
exactly one produced file: dist/out.exe on win32 and dist/out otherwise; the
transient files out.js, sea-config.json and sea-prep.blob are all gone. -/
theorem pipeline_success_retained_files (platform a entryContent b stdout stderr exeC : String)
    (f : String → Except String String) (g : String → String) (r : Except String Unit)
    (hplat : platform = "win32" ∨ platform = "linux" ∨ platform = "macos") :
    (mainRun (Oracle.mk (Except.ok b) f (SpawnOutcome.exited 0 stdout stderr) true g
        (Except.ok ()) exeC r (Except.ok ()) true true true)
      "server.ts" none platform false (some a) (St.mk [("server.ts", entryContent)] [] [] [])).exit = 0 ∧
    ((mainRun (Oracle.mk (Except.ok b) f (SpawnOutcome.exited 0 stdout stderr) true g
        (Except.ok ()) exeC r (Except.ok ()) true true true)
      "server.ts" none platform false (some a) (St.mk [("server.ts", entryContent)] [] [] [])).st).fs.map Prod.fst
      = [getExecutableOutputPath platform, "server.ts"] ∧
    fsExists ((mainRun (Oracle.mk (Except.ok b) f (SpawnOutcome.exited 0 stdout stderr) true g
        (Except.ok ()) exeC r (Except.ok ()) true true true)
      "server.ts" none platform false (some a) (St.mk [("server.ts", entryContent)] [] [] [])).st).fs "out.js" = false ∧
    fsExists ((mainRun (Oracle.mk (Except.ok b) f (SpawnOutcome.exited 0 stdout stderr) true g
        (Except.ok ()) exeC r (Except.ok ()) true true true)
      "server.ts" none platform false (some a) (St.mk [("server.ts", entryContent)] [] [] [])).st).fs "sea-config.json" = false ∧
    fsExists ((mainRun (Oracle.mk (Except.ok b) f (SpawnOutcome.exited 0 stdout stderr) true g
        (Except.ok ()) exeC r (Except.ok ()) true true true)
      "server.ts" none platform false (some a) (St.mk [("server.ts", entryContent)] [] [] [])).st).fs "sea-prep.blob" = false := by
  rcases hplat with h | h | h <;> subst h
  · cases r with
    | ok u => exact ⟨rfl, rfl, rfl, rfl, rfl⟩
    | error e => exact ⟨rfl, rfl, rfl, rfl, rfl⟩
  · exact ⟨rfl, rfl, rfl, rfl, rfl⟩
  · exact ⟨rfl, rfl, rfl, rfl, rfl⟩

/-- C7 witness: a concrete fully successful linux run retains exactly dist/out
next to the entry file and no transient files. -/
theorem pipeline_success_retained_files_witness :
    (mainRun (Oracle.mk (Except.ok "B") (fun c => Except.ok c) (SpawnOutcome.exited 0 "" "") true
        (fun c => c) (Except.ok ()) "X" (Except.ok ()) (Except.ok ()) true true true)
      "server.ts" none "linux" false (some "AD") (St.mk [("server.ts", "E")] [] [] [])).exit = 0 ∧
    ((mainRun (Oracle.mk (Except.ok "B") (fun c => Except.ok c) (SpawnOutcome.exited 0 "" "") true
        (fun c => c) (Except.ok ()) "X" (Except.ok ()) (Except.ok ()) true true true)
      "server.ts" none "linux" false (some "AD") (St.mk [("server.ts", "E")] [] [] [])).st).fs.map Prod.fst
      = [getExecutableOutputPath "linux", "server.ts"] ∧
    fsExists ((mainRun (Oracle.mk (Except.ok "B") (fun c => Except.ok c) (SpawnOutcome.exited 0 "" "") true
        (fun c => c) (Except.ok ()) "X" (Except.ok ()) (Except.ok ()) true true true)
      "server.ts" none "linux" false (some "AD") (St.mk [("server.ts", "E")] [] [] [])).st).fs "out.js" = false ∧
    fsExists ((mainRun (Oracle.mk (Except.ok "B") (fun c => Except.ok c) (SpawnOutcome.exited 0 "" "") true
        (fun c => c) (Except.ok ()) "X" (Except.ok ()) (Except.ok ()) true true true)
      "server.ts" none "linux" false (some "AD") (St.mk [("server.ts", "E")] [] [] [])).st).fs "sea-config.json" = false ∧
    fsExists ((mainRun (Oracle.mk (Except.ok "B") (fun c => Except.ok c) (SpawnOutcome.exited 0 "" "") true
        (fun c => c) (Except.ok ()) "X" (Except.ok ()) (Except.ok ()) true true true)
      "server.ts" none "linux" false (some "AD") (St.mk [("server.ts", "E")] [] [] [])).st).fs "sea-prep.blob" = false :=
  pipeline_success_retained_files "linux" "AD" "E" "B" "" "" "X" (fun c => Except.ok c) (fun c => c)
    (Except.ok ()) (Or.inr (Or.inl rfl))

/-- Claim C8: with the obfuscate flag set and obfuscation succeeding, the
obfuscation stage rewrites out.js in place before blob generation runs, so
the bundled-module content the blob is derived from, and hence the blob that
gets injected, comes from the obfuscated content obf b rather than the
original bundled content b. -/
theorem obfuscation_before_blob_generation (entryContent b stdout stderr exeC : String)
    (obf : String → String) (g : String → String) :
    fsRead ((obfuscateOutputFile
        (Oracle.mk (Except.ok b) (fun c => Except.ok (obf c)) (SpawnOutcome.exited 0 stdout stderr)
          true g (Except.ok ()) exeC (Except.ok ()) (Except.ok ()) true true true)
        outputFile
        ((bundleProject
            (Oracle.mk (Except.ok b) (fun c => Except.ok (obf c)) (SpawnOutcome.exited 0 stdout stderr)
              true g (Except.ok ()) exeC (Except.ok ()) (Except.ok ()) true true true)
            "server.ts" (St.mk [("server.ts", entryContent)] [] [] [])).1)).1).fs outputFile
      = some (obf b) ∧
    ((mainRun (Oracle.mk (Except.ok b) (fun c => Except.ok (obf c)) (SpawnOutcome.exited 0 stdout stderr)
        true g (Except.ok ()) exeC (Except.ok ()) (Except.ok ()) true true true)
      "server.ts" none "linux" true none (St.mk [("server.ts", entryContent)] [] [] [])).st).injectCalls
      = [InjectCall.mk "dist/out" "NODE_SEA_BLOB" (g (obf b)) (atob FUSE_B64) none] ∧
    (mainRun (Oracle.mk (Except.ok b) (fun c => Except.ok (obf c)) (SpawnOutcome.exited 0 stdout stderr)
        true g (Except.ok ()) exeC (Except.ok ()) (Except.ok ()) true true true)
      "server.ts" none "linux" true none (St.mk [("server.ts", entryContent)] [] [] [])).exit = 0 :=
  ⟨rfl, rfl, rfl⟩

/-- C1 counterexample: a run in which the injection itself succeeds (the
injector call is recorded and only the cleanup deletion of sea-prep.blob
fails) exits with status 1 and logs the deletion error through the top-level
handler, refuting the claim that the overall build still succeeds with exit
status 0. -/
theorem cleanup_failure_exits_one_cex :
    (mainRun badUnlinkOracle "server.ts" none "linux" false none stEntry).exit = 1 ∧
    ((mainRun badUnlinkOracle "server.ts" none "linux" false none stEntry).st).injectCalls.length = 1 ∧
    ((mainRun badUnlinkOracle "server.ts" none "linux" false none stEntry).st).logs.getLast?
      = some (LogEntry.error "An unexpected error occurred: EPERM: operation not permitted, unlink sea-prep.blob") :=
  ⟨rfl, rfl, rfl⟩

/-- Claim C1 amended: after a successful injection the pipeline attempts to
delete sea-prep.blob and out.js; when either deletion fails, the thrown error
propagates to the top-level handler, which logs it and exits with status 1 —
the build fails even though the injected executable remains on disk. -/
theorem cleanup_failure_propagates (entryContent b stdout stderr exeC : String)
    (g : String → String) (ub uo : Bool) (h : (ub && uo) = false) :
    (mainRun (Oracle.mk (Except.ok b) (fun c => Except.ok c) (SpawnOutcome.exited 0 stdout stderr)
        true g (Except.ok ()) exeC (Except.ok ()) (Except.ok ()) true ub uo)
      "server.ts" none "linux" false none (St.mk [("server.ts", entryContent)] [] [] [])).exit = 1 ∧
    ((mainRun (Oracle.mk (Except.ok b) (fun c => Except.ok c) (SpawnOutcome.exited 0 stdout stderr)
        true g (Except.ok ()) exeC (Except.ok ()) (Except.ok ()) true ub uo)
      "server.ts" none "linux" false none (St.mk [("server.ts", entryContent)] [] [] [])).st).injectCalls.length = 1 ∧
    fsExists ((mainRun (Oracle.mk (Except.ok b) (fun c => Except.ok c) (SpawnOutcome.exited 0 stdout stderr)
        true g (Except.ok ()) exeC (Except.ok ()) (Except.ok ()) true ub uo)
      "server.ts" none "linux" false none (St.mk [("server.ts", entryContent)] [] [] [])).st).fs "dist/out" = true ∧
    (∃ m, ((mainRun (Oracle.mk (Except.ok b) (fun c => Except.ok c) (SpawnOutcome.exited 0 stdout stderr)
        true g (Except.ok ()) exeC (Except.ok ()) (Except.ok ()) true ub uo)
      "server.ts" none "linux" false none (St.mk [("server.ts", entryContent)] [] [] [])).st).logs.getLast?
        = some (LogEntry.error m)) := by
  cases ub with
  | false =>
    exact ⟨rfl, rfl, rfl,
      ⟨"An unexpected error occurred: EPERM: operation not permitted, unlink sea-prep.blob", rfl⟩⟩
  | true =>
    cases uo with
    | false =>
      exact ⟨rfl, rfl, rfl,
        ⟨"An unexpected error occurred: EPERM: operation not permitted, unlink out.js", rfl⟩⟩
    | true => simp at h

/-- C1 amended witness: a concrete run where only the blob deletion fails
exits 1 with the injected executable still present. -/
theorem cleanup_failure_propagates_witness :
    (mainRun (Oracle.mk (Except.ok "B") (fun c => Except.ok c) (SpawnOutcome.exited 0 "" "")
        true (fun c => c) (Except.ok ()) "X" (Except.ok ()) (Except.ok ()) true false true)
      "server.ts" none "linux" false none (St.mk [("server.ts", "E")] [] [] [])).exit = 1 ∧
    ((mainRun (Oracle.mk (Except.ok "B") (fun c => Except.ok c) (SpawnOutcome.exited 0 "" "")
        true (fun c => c) (Except.ok ()) "X" (Except.ok ()) (Except.ok ()) true false true)
      "server.ts" none "linux" false none (St.mk [("server.ts", "E")] [] [] [])).st).injectCalls.length = 1 ∧
    fsExists ((mainRun (Oracle.mk (Except.ok "B") (fun c => Except.ok c) (SpawnOutcome.exited 0 "" "")
        true (fun c => c) (Except.ok ()) "X" (Except.ok ()) (Except.ok ()) true false true)
      "server.ts" none "linux" false none (St.mk [("server.ts", "E")] [] [] [])).st).fs "dist/out" = true ∧
    (∃ m, ((mainRun (Oracle.mk (Except.ok "B") (fun c => Except.ok c) (SpawnOutcome.exited 0 "" "")
        true (fun c => c) (Except.ok ()) "X" (Except.ok ()) (Except.ok ()) true false true)
      "server.ts" none "linux" false none (St.mk [("server.ts", "E")] [] [] [])).st).logs.getLast?
        = some (LogEntry.error m)) :=
  cleanup_failure_propagates "E" "B" "" "" "X" (fun c => c) false true rfl

/-- C4 counterexample: with an icon path that is given but does not exist on
disk and platform win32, the stage applies nothing (no rcedit call) and logs
the informational skip, refuting the claimed policy that a given icon on
win32 is applied. -/
theorem icon_missing_file_skips_cex :
    ((setExecutableIcon okOracle "dist/out.exe" (some "icon.ico") "win32" (some "appdata") st0).1).rceditCalls = [] ∧
    ((setExecutableIcon okOracle "dist/out.exe" (some "icon.ico") "win32" (some "appdata") st0).1).logs
      = [LogEntry.info "No icon specified or not supported on this platform."] ∧
    (setExecutableIcon okOracle "dist/out.exe" (some "icon.ico") "win32" (some "appdata") st0).2 = none :=
  ⟨rfl, rfl, rfl⟩

/-- Claim C4 amended: the icon stage conditions the two given-icon rows of the
policy table on the icon file existing on disk: a given and existing icon is
applied on win32 and warned about elsewhere; with no icon on win32 a default
icon path under APPDATA is attempted unconditionally (throwing when APPDATA is
unset, with any application failure caught inside setIcon); in every remaining
case — including a given icon path that does not exist — an informational skip
is logged and nothing is applied. -/
theorem setExecutableIcon_policy (o : Oracle) (p : String) (icon : Option String)
    (platform a : String) (appdata : Option String) (st : St) :
    (jsTruthy icon = true → fsExists st.fs (icon.getD "") = true → platform = "win32" →
      setExecutableIcon o p icon platform appdata st = setIcon o p (icon.getD "") st) ∧
    (jsTruthy icon = true → fsExists st.fs (icon.getD "") = true → platform ≠ "win32" →
      setExecutableIcon o p icon platform appdata st
        = (logWarn st "Icon setting is only supported on Windows.", none)) ∧
    (jsTruthy icon = false → platform = "win32" → appdata = none →
      setExecutableIcon o p icon platform appdata st
        = (st, some "The path argument must be of type string. Received undefined")) ∧
    (jsTruthy icon = false → platform = "win32" → appdata = some a →
      setExecutableIcon o p icon platform appdata st
        = setIcon o p (pathJoin (pathJoin (pathJoin (pathJoin a "npm") "node_modules") "sea-builder") "default.ico") st) ∧
    ((jsTruthy icon = true ∧ fsExists st.fs (icon.getD "") = false) ∨
        (jsTruthy icon = false ∧ platform ≠ "win32") →
      setExecutableIcon o p icon platform appdata st
        = (logInfo st "No icon specified or not supported on this platform.", none)) := by
  refine ⟨?_, ?_, ?_, ?_, ?_⟩
  · intro h1 h2 h3
    simp [setExecutableIcon, h1, h2, h3]
  · intro h1 h2 h3
    simp [setExecutableIcon, h1, h2, h3]
  · intro h1 h2 h3
    subst h3
    simp [setExecutableIcon, h1, h2]
  · intro h1 h2 h3
    subst h3
    simp [setExecutableIcon, h1, h2]
  · intro h1
    rcases h1 with ⟨h1, h2⟩ | ⟨h1, h2⟩
    · simp [setExecutableIcon, h1, h2]
    · simp [setExecutableIcon, h1, h2]

/-- C4 amended witness: a given icon that exists on linux produces exactly the
unsupported-platform warning. -/
theorem setExecutableIcon_policy_witness :
    setExecutableIcon okOracle "dist/out" (some "icon.ico") "linux" none
        (St.mk [("icon.ico", "II")] [] [] [])
      = (logWarn (St.mk [("icon.ico", "II")] [] [] []) "Icon setting is only supported on Windows.", none) :=
  (setExecutableIcon_policy okOracle "dist/out" (some "icon.ico") "linux" "a" none
    (St.mk [("icon.ico", "II")] [] [] [])).2.1 rfl rfl (by decide)

/-- C5 counterexample: on win32 with no icon and APPDATA unset the icon stage
aborts the whole pipeline (exit status 1) without any icon application having
been attempted, refuting the claim that the icon stage can never abort the
pipeline. -/
theorem icon_stage_aborts_cex :
    (mainRun okOracle "server.ts" none "win32" false none stEntry).exit = 1 ∧
    ((mainRun okOracle "server.ts" none "win32" false none stEntry).st).rceditCalls = [] :=
  ⟨rfl, rfl⟩

/-- Claim C5 amended: a failure of the icon application itself (the rcedit
call) is always caught inside setIcon and logged, never rethrown — setIcon
returns without error for every rcedit outcome; the only way the icon stage
can throw, and hence abort the pipeline, is the default-icon path construction
when no icon is given on win32 and APPDATA is unset. -/
theorem icon_application_never_escalates (o : Oracle) (exe ipath p : String) (icon : Option String)
    (platform : String) (appdata : Option String) (st st2 : St) :
    (setIcon o exe ipath st).2 = none ∧
    ((setExecutableIcon o p icon platform appdata st2).2 ≠ none →
      jsTruthy icon = false ∧ platform = "win32" ∧ appdata = none) := by
  constructor
  · unfold setIcon
    cases o.rceditResult with
    | ok u => rfl
    | error e => rfl
  · intro hne
    unfold setExecutableIcon at hne
    by_cases h1 : (jsTruthy icon && fsExists st2.fs (icon.getD "") && (platform == "win32")) = true
    · rw [if_pos h1] at hne
      exfalso
      apply hne
      unfold setIcon
      cases o.rceditResult with
      | ok u => rfl
      | error e => rfl
    · rw [if_neg h1] at hne
      by_cases h2 : (jsTruthy icon && fsExists st2.fs (icon.getD "") && !(platform == "win32")) = true
      · rw [if_pos h2] at hne
        exact absurd rfl hne
      · rw [if_neg h2] at hne
        by_cases h3 : (!(jsTruthy icon) && (platform == "win32")) = true
        · rw [if_pos h3] at hne
          simp only [Bool.and_eq_true, Bool.not_eq_true', beq_iff_eq] at h3
          cases appdata with
          | none => exact ⟨h3.1, h3.2, rfl⟩
          | some ad =>
            exfalso
            apply hne
            unfold setIcon
            cases o.rceditResult with
            | ok u => rfl
            | error e => rfl
        · rw [if_neg h3] at hne
          exact absurd rfl hne

/-- C5 amended witness: setIcon returns without error on a concrete state,
and the concrete aborting case is exactly the no-icon win32 APPDATA-unset
configuration. -/
theorem icon_application_never_escalates_witness :
    (setIcon okOracle "dist/out.exe" "icon.ico" st0).2 = none ∧
    (jsTruthy (none : Option String) = false ∧ ("win32" : String) = "win32" ∧ (none : Option String) = none) :=
  ⟨(icon_application_never_escalates okOracle "dist/out.exe" "icon.ico" "dist/out.exe" none "win32" none st0 st0).1,
    (icon_application_never_escalates okOracle "dist/out.exe" "icon.ico" "dist/out.exe" none "win32" none st0 st0).2
      (by decide)⟩

/-- C9 counterexample: commander accepts the platform value freebsd, which is
outside the three-value enumeration, and the pipeline stages run with it to a
successful completion — including the injector call — refuting the claim that
no value outside the enumeration can reach the pipeline stages. -/
theorem platform_not_validated_cex :
    parseOpts rawFreebsd
      = some (Opts.mk "server.ts" none "freebsd" false) ∧
    ¬(("freebsd" : String) = "win32" ∨ ("freebsd" : String) = "linux" ∨ ("freebsd" : String) = "macos") ∧
    (runProgram (Semver.mk 20 0 0) rawFreebsd okOracle none stEntry).exit = 0 ∧
    ((runProgram (Semver.mk 20 0 0) rawFreebsd okOracle none stEntry).st).injectCalls.length = 1 :=
  ⟨rfl, by decide, rfl, rfl⟩

/-- Claim C9 amended: the entry file path and the platform are always present
in a parsed configuration — commander fails to parse exactly when one of the
two required options is missing — but the platform value itself is not
validated: any supplied string, including values outside the win32, linux,
macos enumeration, is passed through to the pipeline stages unchanged. -/
theorem parse_requires_input_platform (raw : RawOpts) :
    (parseOpts raw = none ↔ (raw.input = none ∨ raw.platform = none)) ∧
    (∀ opts, parseOpts raw = some opts →
      raw.input = some opts.input ∧ raw.platform = some opts.platform ∧
        opts.icon = raw.icon ∧ opts.obfuscate = raw.obfuscate) := by
  obtain ⟨i, ic, pl, ob⟩ := raw
  cases i with
  | none => cases pl <;> simp [parseOpts]
  | some iv =>
    cases pl with
    | none => simp [parseOpts]
    | some pv =>
      constructor
      · simp [parseOpts]
      · intro opts hopts
        simp only [parseOpts, Option.some.injEq] at hopts
        subst hopts
        exact ⟨rfl, rfl, rfl, rfl⟩

/-- C9 amended witness: parsing the freebsd raw options yields a configuration
whose input and platform are exactly the supplied values. -/
theorem parse_requires_input_platform_witness :
    rawFreebsd.input = some "server.ts" ∧ rawFreebsd.platform = some "freebsd" ∧
      (none : Option String) = rawFreebsd.icon ∧ false = rawFreebsd.obfuscate :=
  (parse_requires_input_platform rawFreebsd).2 (Opts.mk "server.ts" none "freebsd" false) rfl

end SeaBuilder
